import Mathlib

/-!
# Verification of the Veeky feed paging and playback-coordination engine

Shallow embedding of the feed controller / paging driver / playback
coordinator logic of the Veeky app, translated from:

* `src/components/VideoFeed.tsx` — the native feed (FlatList driver):
  `clampIndex`, the deep-link effect (`initialVideoId`), the `feedActive`
  effect, `onBeginDrag` / `onEndDrag` / `onMomentumEnd`, and `renderItem`'s
  `isActive` computation.
* `src/unnamed/part_013` (`WebVideoFeed.tsx`) — the web feed:
  `playIndex`, `goToIndex`, `handleWheel`, `handleTouchEnd`, and the
  wheel lock.
* `src/components/VideoItem.tsx` — the per-item `isActive` effect and the
  manual tap-to-play toggle (`handleTogglePlay`), web path.

Scroll offsets and wheel/touch deltas are modelled as rationals (the source
uses JS numbers; no claim depends on float rounding).  The outcome of an
asynchronous `el.play()` call is modelled by an explicit `ok : Bool`
parameter: `ok = true` means the play promise resolved, `ok = false` means
it rejected (autoplay blocked); the source's `.catch(() => {})` handlers
absorb the rejection, which the model reflects by total functions.
-/

namespace Veeky

/-- A command sent to a media element, recorded for claims about which
play/pause calls a commit triggers.  `play i` / `pause i` are
`videoRefs.current[i].play()` / `.pause()` in the source. -/
inductive MediaCmd where
  | play (i : Nat)
  | pause (i : Nat)
deriving DecidableEq, Repr

/-- A programmatic scroll request (`scrollToIndex` / `scrollTo`), recorded
with the target page index and whether the jump is animated. -/
structure ScrollCmd where
  index : Nat
  animated : Bool
deriving DecidableEq, Repr

/-- `clampIndex` from both feed files:
`const clampIndex = (idx, max) => Math.max(0, Math.min(max, idx));` -/
def clampIndex (idx mx : Int) : Int := max 0 (min mx idx)

lemma clampIndex_nonneg (idx mx : Int) : 0 ≤ clampIndex idx mx := by
  unfold clampIndex
  exact le_max_left 0 _

lemma clampIndex_of_mem (idx mx : Int) (h0 : 0 ≤ idx) (h1 : idx ≤ mx) :
    clampIndex idx mx = idx := by
  unfold clampIndex
  rw [min_eq_right h1, max_eq_right h0]

lemma clampIndex_neg_max (idx : Int) : clampIndex idx (-1) = 0 := by
  unfold clampIndex
  rw [max_eq_left]
  exact le_trans (min_le_left _ _) (by norm_num)

/-! ## Web feed (`WebVideoFeed`, emulated paging driver) -/

/-- State of the `WebVideoFeed` component.

* `itemCount` — `filteredData.length`.
* `handles` — `videoRefs.current`: one slot per item index; `none` is a
  null ref (unregistered handle), `some b` a registered `<video>` element
  whose playing state is `b`.
* `activeIndex` — the `activeIndex` state / `activeIndexRef` (the source
  keeps them in sync; both start at 0 and are only ever set together in
  `playIndex`).
* `wheelLock` — `wheelLockRef.current`.
* `feedActive` — the `feedActive` prop. -/
structure WebFeedState where
  itemCount : Nat
  handles : List (Option Bool)
  activeIndex : Nat
  wheelLock : Bool
  feedActive : Bool
deriving DecidableEq, Repr

/-- The playing state of the handle at index `j` (`false` for a null or
missing ref). -/
def playingAt (hs : List (Option Bool)) (j : Nat) : Bool :=
  (hs.getD j none).getD false

/-- The handle-state update performed by `playIndex`'s `forEach`: the
element at position `idx` becomes playing iff `idx = i` and the play
promise resolved (`ok`); every other registered element is paused.  Null
refs are skipped (`if (!videoEl) return;`).  `idx` is the index of the
first element of the remaining list. -/
def reconcileHandles (i : Nat) (ok : Bool) : Nat → List (Option Bool) → List (Option Bool)
  | _, [] => []
  | idx, h :: t =>
      (h.map fun _ => if idx = i then ok else false) :: reconcileHandles i ok (idx + 1) t

/-- The media commands emitted by `playIndex`'s `forEach`, in order:
`play i` for the registered element at `i`, `pause idx` for every other
registered element. -/
def reconcileCmds (i : Nat) : Nat → List (Option Bool) → List MediaCmd
  | _, [] => []
  | idx, none :: t => reconcileCmds i (idx + 1) t
  | idx, some _ :: t =>
      (if idx = i then MediaCmd.play i else MediaCmd.pause idx) :: reconcileCmds i (idx + 1) t

/-- Handle states after `playIndex(i)` (web feed, lines 132–146). -/
def playHandles (hs : List (Option Bool)) (i : Nat) (ok : Bool) : List (Option Bool) :=
  reconcileHandles i ok 0 hs

/-- Media commands issued by `playIndex(i)`. -/
def playIndexCmds (hs : List (Option Bool)) (i : Nat) : List MediaCmd :=
  reconcileCmds i 0 hs

/-- State after `playIndex(i)`: reconcile every handle, then
`setActiveIndex(index); activeIndexRef.current = index;`. -/
def playIndexState (i : Nat) (ok : Bool) (s : WebFeedState) : WebFeedState :=
  { s with handles := playHandles s.handles i ok, activeIndex := i }

/-- The clamped target of `goToIndex`:
`const next = clampIndex(index, filteredData.length - 1);`.
`clampIndex` never returns a negative value, so `toNat` is exact. -/
def goToIndexNext (s : WebFeedState) (i : Int) : Nat :=
  (clampIndex i ((s.itemCount : Int) - 1)).toNat

/-- State after `goToIndex(index, animated)` (web feed, lines 148–154):
clamp, scroll (recorded separately), then `playIndex(next)`. -/
def goToIndexState (i : Int) (ok : Bool) (s : WebFeedState) : WebFeedState :=
  playIndexState (goToIndexNext s i) ok s

/-- The scroll request issued by `goToIndex(index, animated)`. -/
def goToIndexScroll (i : Int) (animated : Bool) (s : WebFeedState) : ScrollCmd :=
  ⟨goToIndexNext s i, animated⟩

/-- `const dir = deltaY > 0 ? 1 : -1;` — note a zero delta yields `-1`. -/
def wheelDir (delta : ℚ) : Int := if delta > 0 then 1 else -1

/-- `handleWheel` (web feed, lines 220–236): bail out when the feed is
inactive or the wheel lock is held; otherwise take the lock and commit one
step in direction `wheelDir delta` from `activeIndexRef.current`. -/
def handleWheel (delta : ℚ) (ok : Bool) (s : WebFeedState) : WebFeedState :=
  if s.feedActive = false then s
  else if s.wheelLock then s
  else goToIndexState ((s.activeIndex : Int) + wheelDir delta) ok { s with wheelLock := true }

/-- The `setTimeout(() => { wheelLockRef.current = false; }, 320)` callback:
releases the wheel lock after the cool-down. -/
def wheelUnlock (s : WebFeedState) : WebFeedState :=
  { s with wheelLock := false }

/-- `handleTouchEnd` (web feed, lines 244–260) with the recorded touch-start
`startY` and the release position `endY`.  `threshold = 40`;
`delta <= -threshold` commits the next index, `delta >= threshold` the
previous one, anything in between snaps back to the current index. -/
def handleTouchEnd (startY endY : ℚ) (ok : Bool) (s : WebFeedState) : WebFeedState :=
  if s.feedActive = false then s
  else
    let delta := endY - startY
    if delta ≤ -40 then goToIndexState ((s.activeIndex : Int) + 1) ok s
    else if delta ≥ 40 then goToIndexState ((s.activeIndex : Int) - 1) ok s
    else goToIndexState (s.activeIndex : Int) ok s

/-! ## Native feed (`VideoFeed.tsx`, native paging driver) -/

/-- State of the native `VideoFeed` component.

* `itemIds` — the ids of `filteredData`, in order.
* `activeIndex` — the `activeIndex` state (`-1` meaning nothing active).
* `lastActiveIndex` — `lastActiveIndexRef.current` (the last committed
  index; initialised to 0).
* `feedActive` — the `feedActive` prop.
* `dragStartY`, `dragStartIndex` — `dragStartYRef` / `dragStartIndexRef`.
* `snapping` — `snappingRef.current`. -/
structure NativeFeedState where
  itemIds : List String
  activeIndex : Int
  lastActiveIndex : Nat
  feedActive : Bool
  dragStartY : ℚ
  dragStartIndex : Nat
  snapping : Bool
deriving DecidableEq, Repr

/-- The shared commit action of the native feed: both `onEndDrag` and the
deep-link effect run `lastActiveIndexRef.current = i; setActiveIndex(i);`. -/
def nativeCommit (i : Nat) (s : NativeFeedState) : NativeFeedState :=
  { s with activeIndex := (i : Int), lastActiveIndex := i }

/-- `onScrollBeginDrag` (native feed, lines 321–327). -/
def onBeginDrag (y : ℚ) (s : NativeFeedState) : NativeFeedState :=
  if s.feedActive = false then s
  else { s with snapping := false, dragStartY := y, dragStartIndex := s.lastActiveIndex }

/-- `onScrollEndDrag` (native feed, lines 329–359): one-step commit from
the drag-start index.  `threshold = height * 0.12` (the float constant is
modelled exactly as `12/100`); `deltaY > threshold` moves forward,
`deltaY < -threshold` backward, otherwise the start index is kept; the
result is clamped and committed, the snap lock is taken and an animated
scroll to the committed index is issued. -/
def onEndDrag (endY height : ℚ) (s : NativeFeedState) :
    NativeFeedState × List ScrollCmd :=
  if s.feedActive = false then (s, [])
  else
    let maxIndex : Int := (s.itemIds.length : Int) - 1
    let startIndex := s.dragStartIndex
    let deltaY := endY - s.dragStartY
    let threshold := height * (12 / 100)
    let nextRaw : Int :=
      if deltaY > threshold then (startIndex : Int) + 1
      else if deltaY < -threshold then (startIndex : Int) - 1
      else (startIndex : Int)
    let next : Nat := (clampIndex nextRaw maxIndex).toNat
    ({ nativeCommit next s with snapping := true }, [⟨next, true⟩])

/-- The `setTimeout(() => { snappingRef.current = false; }, 250)` callback
scheduled by `onEndDrag`. -/
def snapRelease (s : NativeFeedState) : NativeFeedState :=
  { s with snapping := false }

/-- `onMomentumScrollEnd` (native feed, lines 361–368): if not locked,
re-issue an unanimated scroll to the last committed index; never changes
`activeIndex`. -/
def onMomentumEnd (s : NativeFeedState) : NativeFeedState × List ScrollCmd :=
  if s.feedActive = false then (s, [])
  else if s.snapping then (s, [])
  else
    (s, [⟨(clampIndex (s.lastActiveIndex : Int) ((s.itemIds.length : Int) - 1)).toNat, false⟩])

/-- The `feedActive` effect (native feed, lines 305–315):
on `false`, `setActiveIndex(-1)`; on `true`,
`setActiveIndex(prev => prev >= 0 ? prev : lastActiveIndexRef.current ?? 0)`. -/
def applyFeedActive (b : Bool) (s : NativeFeedState) : NativeFeedState :=
  if b = false then { s with feedActive := false, activeIndex := -1 }
  else
    { s with
      feedActive := true
      activeIndex := if 0 ≤ s.activeIndex then s.activeIndex else (s.lastActiveIndex : Int) }

/-- The deep-link (`initialVideoId`) effect (native feed, lines 287–302):
guarded by `feedActive`; look the target id up in the filtered list; if
found, issue an unanimated `scrollToIndex` and commit that position; if
absent, do nothing. -/
def resolveDeepLink (target : String) (s : NativeFeedState) :
    NativeFeedState × List ScrollCmd :=
  if s.feedActive = false then (s, [])
  else
    match s.itemIds.findIdx? (· == target) with
    | some idx => (nativeCommit idx s, [⟨idx, false⟩])
    | none => (s, [])

/-- `renderItem`'s `isActive` computation (native feed, lines 379–387):
`feedActiveRef.current && index === activeIndexRef.current`. -/
def nativeIsActive (s : NativeFeedState) (i : Nat) : Bool :=
  s.feedActive && ((i : Int) == s.activeIndex)

/-! ## Per-item playback (`VideoItem.tsx`, web path) -/

/-- Player-level command of a single `VideoItem`'s media element. -/
inductive PlayerCmd where
  | play
  | pause
deriving DecidableEq, Repr

/-- State of one `VideoItem`: the media element's playing state and the
component's `isPlaying` React state. -/
structure ItemState where
  playing : Bool
  isPlaying : Bool
deriving DecidableEq, Repr

/-- The promise returned by `el.play()`: resolves when `ok`, rejects with
`NotAllowedError` when autoplay is blocked. -/
def rawPlay (ok : Bool) : Except String Unit :=
  if ok then Except.ok () else Except.error "NotAllowedError"

/-- The `isActive` effect of `VideoItem` (web path, lines 381–406):
when active, call `el.play()`; on resolution set `isPlaying := true`, on
rejection leave everything as it was (`.catch` swallows the error).  When
inactive, `el.pause(); setIsPlaying(false)`. -/
def itemActiveEffect (isActive ok : Bool) (s : ItemState) : ItemState × List PlayerCmd :=
  if isActive then
    match rawPlay ok with
    | Except.ok _ => ({ playing := true, isPlaying := true }, [PlayerCmd.play])
    | Except.error _ => (s, [PlayerCmd.play])
  else ({ playing := false, isPlaying := false }, [PlayerCmd.pause])

/-- `handleTogglePlay` of `VideoItem` (web path): taps on inactive items are
ignored; on an active item, pause when `isPlaying`, otherwise retry
`el.play()` on the same element (again swallowing a rejection). -/
def handleTogglePlay (isActive ok : Bool) (s : ItemState) : ItemState × List PlayerCmd :=
  if isActive = false then (s, [])
  else if s.isPlaying then ({ playing := false, isPlaying := false }, [PlayerCmd.pause])
  else
    match rawPlay ok with
    | Except.ok _ => ({ playing := true, isPlaying := true }, [PlayerCmd.play])
    | Except.error _ => (s, [PlayerCmd.play])

/-! ## Helper lemmas -/

lemma clampIndex_step (L n : Nat) (x : Int) (hL : L < n)
    (hlo : (L : Int) - 1 ≤ x) (hhi : x ≤ (L : Int) + 1) :
    (((clampIndex x ((n : Int) - 1)).toNat : Int) - L = -1 ∨
     ((clampIndex x ((n : Int) - 1)).toNat : Int) - L = 0 ∨
     ((clampIndex x ((n : Int) - 1)).toNat : Int) - L = 1) := by
  unfold clampIndex
  omega

lemma goToIndexState_activeIndex (i : Int) (ok : Bool) (s : WebFeedState) :
    (goToIndexState i ok s).activeIndex = (clampIndex i ((s.itemCount : Int) - 1)).toNat := rfl

lemma drag_gesture_activeIndex (y0 y1 hgt : ℚ) (s : NativeFeedState)
    (hf : s.feedActive = true) :
    (onEndDrag y1 hgt (onBeginDrag y0 s)).1.activeIndex =
      ((clampIndex (if y1 - y0 > hgt * (12 / 100) then (s.lastActiveIndex : Int) + 1
          else if y1 - y0 < -(hgt * (12 / 100)) then (s.lastActiveIndex : Int) - 1
          else (s.lastActiveIndex : Int)) ((s.itemIds.length : Int) - 1)).toNat : Int) := by
  simp only [onBeginDrag, onEndDrag, nativeCommit, hf, Bool.true_eq_false, if_false]

lemma handleWheel_activeIndex (δ : ℚ) (ok : Bool) (s : WebFeedState)
    (hf : s.feedActive = true) (hl : s.wheelLock = false) :
    (handleWheel δ ok s).activeIndex =
      (clampIndex ((s.activeIndex : Int) + (if δ > 0 then 1 else -1))
        ((s.itemCount : Int) - 1)).toNat := by
  simp only [handleWheel, wheelDir, goToIndexState, playIndexState, goToIndexNext,
    hf, hl, Bool.true_eq_false, Bool.false_eq_true, if_false]

lemma handleTouchEnd_activeIndex (startY endY : ℚ) (ok : Bool) (s : WebFeedState)
    (hf : s.feedActive = true) :
    (handleTouchEnd startY endY ok s).activeIndex =
      (clampIndex (if endY - startY ≤ -40 then (s.activeIndex : Int) + 1
          else if endY - startY ≥ 40 then (s.activeIndex : Int) - 1
          else (s.activeIndex : Int)) ((s.itemCount : Int) - 1)).toNat := by
  simp only [handleTouchEnd, goToIndexState, playIndexState, goToIndexNext, hf,
    Bool.true_eq_false, if_false]
  split_ifs <;> rfl

lemma clampIndex_toNat_of_mem (i n : Nat) (hi : i < n) :
    (clampIndex (i : Int) ((n : Int) - 1)).toNat = i := by
  unfold clampIndex
  omega

lemma reconcileHandles_getD (i : Nat) (ok : Bool) (hs : List (Option Bool)) :
    ∀ (idx j : Nat),
      (reconcileHandles i ok idx hs).getD j none
        = (hs.getD j none).map (fun _ => if idx + j = i then ok else false) := by
  induction hs with
  | nil => intro idx j; simp [reconcileHandles]
  | cons h t ih =>
      intro idx j
      cases j with
      | zero => simp [reconcileHandles]
      | succ j =>
          simp only [reconcileHandles, List.getD_cons_succ]
          rw [ih (idx + 1) j]
          have harith : idx + 1 + j = idx + (j + 1) := by omega
          rw [harith]

lemma reconcileCmds_mem (i : Nat) (hs : List (Option Bool)) :
    ∀ (idx j : Nat), (hs.getD j none).isSome →
      (if idx + j = i then MediaCmd.play i else MediaCmd.pause (idx + j)) ∈
        reconcileCmds i idx hs := by
  induction hs with
  | nil => intro idx j hj; simp at hj
  | cons h t ih =>
      intro idx j hj
      cases h with
      | none =>
          cases j with
          | zero => simp at hj
          | succ j =>
              simp only [List.getD_cons_succ] at hj
              have := ih (idx + 1) j hj
              have harith : idx + 1 + j = idx + (j + 1) := by omega
              rw [harith] at this
              simpa [reconcileCmds] using this
      | some b =>
          cases j with
          | zero => simp [reconcileCmds]
          | succ j =>
              simp only [List.getD_cons_succ] at hj
              have := ih (idx + 1) j hj
              have harith : idx + 1 + j = idx + (j + 1) := by omega
              rw [harith] at this
              exact List.mem_cons_of_mem _ this

lemma playHandles_playingAt_self (hs : List (Option Bool)) (i : Nat)
    (hreg : (hs.getD i none).isSome) :
    playingAt (playHandles hs i true) i = true := by
  unfold playingAt playHandles
  rw [reconcileHandles_getD]
  obtain ⟨b, hb⟩ := Option.isSome_iff_exists.mp hreg
  rw [hb]
  simp

lemma playHandles_playingAt_other (hs : List (Option Bool)) (i j : Nat) (hj : j ≠ i) :
    playingAt (playHandles hs i true) j = false := by
  unfold playingAt playHandles
  rw [reconcileHandles_getD]
  cases hgd : hs.getD j none with
  | none => simp
  | some b => simp [hj]

/-- A wheel event arriving while the wheel lock is held leaves the state
untouched (both guard branches of `handleWheel` return the input state). -/
lemma handleWheel_locked (δ : ℚ) (ok : Bool) (t : WebFeedState)
    (hl : t.wheelLock = true) : handleWheel δ ok t = t := by
  simp [handleWheel, hl]

/-! ## Claims -/

/-- Claim C1: after a commit of a valid index `i` (every web commit path —
scroll-settle, wheel/touch gesture, deep link, tap-to-play — funnels
through `goToIndex`/`playIndex`) while `feedActive` is true, and granted
that the play promise of the target element resolves (`ok = true`; a
rejected promise is the subject of C9), exactly one media handle — the
registered one at index `i` — is playing and every other handle is
stopped.  In the native feed the same exclusivity holds through
`renderItem`'s `isActive`, which is true for exactly one index. -/
theorem exclusive_playback_after_commit (s : WebFeedState) (i : Nat)
    (hf : s.feedActive = true) (hi : i < s.itemCount)
    (hreg : (s.handles.getD i none).isSome = true) :
    (goToIndexState (i : Int) true s).activeIndex = i
    ∧ playingAt (goToIndexState (i : Int) true s).handles i = true
    ∧ ∀ j, j ≠ i → playingAt (goToIndexState (i : Int) true s).handles j = false := by
  have hnext : goToIndexNext s (i : Int) = i := clampIndex_toNat_of_mem i s.itemCount hi
  refine ⟨?_, ?_, ?_⟩
  · simp [goToIndexState, playIndexState, hnext]
  · simp only [goToIndexState, playIndexState, hnext]
    exact playHandles_playingAt_self _ _ hreg
  · intro j hj
    simp only [goToIndexState, playIndexState, hnext]
    exact playHandles_playingAt_other _ _ _ hj

/-- Claim C1 witness: a four-item feed, all handles registered and paused,
committing index 2 plays exactly handle 2. -/
theorem exclusive_playback_after_commit_witness :
    (goToIndexState (2 : Int) true
        ⟨4, [some false, some false, some false, some false], 0, false, true⟩).activeIndex = 2
    ∧ playingAt (goToIndexState (2 : Int) true
        ⟨4, [some false, some false, some false, some false], 0, false, true⟩).handles 2 = true
    ∧ ∀ j, j ≠ 2 → playingAt (goToIndexState (2 : Int) true
        ⟨4, [some false, some false, some false, some false], 0, false, true⟩).handles j = false :=
  exclusive_playback_after_commit
    ⟨4, [some false, some false, some false, some false], 0, false, true⟩ 2
    rfl (by decide) (by decide)

/-- Claim C3: the `feedActive` round trip of the native feed preserves the
committed position: after committing a valid index `k`, setting
`feedActive` to false drives `activeIndex` to `-1` (so `isActive` is false
for every item and each `VideoItem` effect pauses its handle), and setting
it back to true restores `activeIndex` to `k` — the last committed index —
never unconditionally to 0.  (The web feed variant keeps `activeIndex = k`
while inactive and only pauses the elements, so its round trip preserves
the position trivially.) -/
theorem feed_active_round_trip (s : NativeFeedState) (k : Nat)
    (hk : k < s.itemIds.length) :
    (applyFeedActive false (nativeCommit k s)).activeIndex = -1
    ∧ (∀ j : Nat, nativeIsActive (applyFeedActive false (nativeCommit k s)) j = false)
    ∧ (applyFeedActive true (applyFeedActive false (nativeCommit k s))).activeIndex = (k : Int) := by
  refine ⟨by simp [applyFeedActive], ?_, ?_⟩
  · intro j
    simp [nativeIsActive, applyFeedActive]
  · simp [applyFeedActive, nativeCommit]

/-- Claim C3 witness: commit index 2 of a four-item feed, toggle
`feedActive` off and on: while off `activeIndex = -1` and nothing is
active; after resuming `activeIndex = 2`, not 0. -/
theorem feed_active_round_trip_witness :
    (applyFeedActive false (nativeCommit 2 ⟨["A", "B", "C", "D"], 0, 0, true, 0, 0, false⟩)).activeIndex = -1
    ∧ (∀ j : Nat, nativeIsActive
        (applyFeedActive false (nativeCommit 2 ⟨["A", "B", "C", "D"], 0, 0, true, 0, 0, false⟩)) j = false)
    ∧ (applyFeedActive true (applyFeedActive false
        (nativeCommit 2 ⟨["A", "B", "C", "D"], 0, 0, true, 0, 0, false⟩))).activeIndex = (2 : Int) :=
  feed_active_round_trip ⟨["A", "B", "C", "D"], 0, 0, true, 0, 0, false⟩ 2 (by decide)

/-- Claim C4: with the feed active, `resolveDeepLink(targetId)` commits to
the position of `targetId` when it occurs in the filtered list —
`activeIndex` and `lastActiveIndexRef` are both set to it and a single
unanimated scroll request is issued — and is a complete no-op (state
unchanged, no scroll, no error: the lookup is total) when it is absent. -/
theorem deep_link_resolution (s : NativeFeedState) (target : String)
    (hf : s.feedActive = true) :
    (∀ p : Nat, s.itemIds.findIdx? (· == target) = some p →
        resolveDeepLink target s =
          ({ s with activeIndex := (p : Int), lastActiveIndex := p }, [⟨p, false⟩]))
    ∧ (s.itemIds.findIdx? (· == target) = none → resolveDeepLink target s = (s, [])) := by
  constructor
  · intro p hp
    simp [resolveDeepLink, hf, hp, nativeCommit]
  · intro hp
    simp [resolveDeepLink, hf, hp]

/-- Claim C4 witness: on the list `[A, B, C, D]`, `resolveDeepLink "C"`
commits index 2 with an unanimated jump, and `resolveDeepLink "Z"` changes
nothing. -/
theorem deep_link_resolution_witness :
    resolveDeepLink "C" ⟨["A", "B", "C", "D"], 0, 0, true, 0, 0, false⟩ =
      (⟨["A", "B", "C", "D"], (2 : Int), 2, true, 0, 0, false⟩, [⟨2, false⟩])
    ∧ resolveDeepLink "Z" ⟨["A", "B", "C", "D"], 0, 0, true, 0, 0, false⟩ =
      (⟨["A", "B", "C", "D"], 0, 0, true, 0, 0, false⟩, []) :=
  ⟨(deep_link_resolution ⟨["A", "B", "C", "D"], 0, 0, true, 0, 0, false⟩ "C" rfl).1 2 rfl,
   (deep_link_resolution ⟨["A", "B", "C", "D"], 0, 0, true, 0, 0, false⟩ "Z" rfl).2 rfl⟩

/-- Claim C10: in the native feed, a deep-link request processed while
`feedActive` is false changes nothing: the guard at the top of the
`initialVideoId` effect returns before looking the id up, so `activeIndex`,
`lastActiveIndexRef` and the scroll position (no scroll command is issued)
all keep their previous values. -/
theorem deep_link_inactive_noop (s : NativeFeedState) (target : String)
    (hf : s.feedActive = false) :
    resolveDeepLink target s = (s, []) := by
  simp [resolveDeepLink, hf]

/-- Claim C10 witness: with `feedActive = false`, resolving a deep link to
"C" — present in the list — is a complete no-op. -/
theorem deep_link_inactive_noop_witness :
    resolveDeepLink "C" ⟨["A", "B", "C", "D"], 1, 1, false, 0, 0, false⟩ =
      (⟨["A", "B", "C", "D"], 1, 1, false, 0, 0, false⟩, []) :=
  deep_link_inactive_noop ⟨["A", "B", "C", "D"], 1, 1, false, 0, 0, false⟩ "C" rfl

/-- Claim C9: a rejected `play()` promise during activation is swallowed by
the `.catch` handler — `itemActiveEffect` is a total function, so no error
propagates — the item stays paused with `isPlaying = false`, and a
subsequent manual tap (`handleTogglePlay`) on the still-inactive-looking
item re-issues `play()` on the same media element; when that retry
resolves, the item plays. -/
theorem play_failure_swallowed (s : ItemState)
    (hp : s.isPlaying = false) (hq : s.playing = false) :
    (itemActiveEffect true false s).1.isPlaying = false
    ∧ (itemActiveEffect true false s).1.playing = false
    ∧ (handleTogglePlay true true (itemActiveEffect true false s).1).2 = [PlayerCmd.play]
    ∧ (handleTogglePlay true true (itemActiveEffect true false s).1).1.isPlaying = true := by
  simp [itemActiveEffect, rawPlay, handleTogglePlay, hp, hq]

/-- Claim C9 witness: a stopped item whose activation play is blocked stays
stopped; the following manual tap retries `play()` and succeeds. -/
theorem play_failure_swallowed_witness :
    (itemActiveEffect true false ⟨false, false⟩).1.isPlaying = false
    ∧ (itemActiveEffect true false ⟨false, false⟩).1.playing = false
    ∧ (handleTogglePlay true true (itemActiveEffect true false ⟨false, false⟩).1).2 = [PlayerCmd.play]
    ∧ (handleTogglePlay true true (itemActiveEffect true false ⟨false, false⟩).1).1.isPlaying = true :=
  play_failure_swallowed ⟨false, false⟩ rfl rfl

/-- Claim C2: one discrete gesture changes `activeIndex` by at most one
step, whatever the raw displacement: a full native drag (begin-drag to
end-drag), a wheel tick of any signed delta, and a touch swipe of any
length each move `activeIndex` by an amount in `{-1, 0, +1}`, provided the
pre-gesture index is valid (in sync with the last commit for the native
drag). -/
theorem gesture_step_bounded
    (sN : NativeFeedState) (sW : WebFeedState)
    (y0 y1 hgt δ startY endY : ℚ) (ok1 ok2 : Bool)
    (hNf : sN.feedActive = true)
    (hNs : sN.activeIndex = (sN.lastActiveIndex : Int))
    (hNv : sN.lastActiveIndex < sN.itemIds.length)
    (hWf : sW.feedActive = true) (hWl : sW.wheelLock = false)
    (hWv : sW.activeIndex < sW.itemCount) :
    ((onEndDrag y1 hgt (onBeginDrag y0 sN)).1.activeIndex - sN.activeIndex = -1 ∨
     (onEndDrag y1 hgt (onBeginDrag y0 sN)).1.activeIndex - sN.activeIndex = 0 ∨
     (onEndDrag y1 hgt (onBeginDrag y0 sN)).1.activeIndex - sN.activeIndex = 1)
    ∧ (((handleWheel δ ok1 sW).activeIndex : Int) - (sW.activeIndex : Int) = -1 ∨
       ((handleWheel δ ok1 sW).activeIndex : Int) - (sW.activeIndex : Int) = 0 ∨
       ((handleWheel δ ok1 sW).activeIndex : Int) - (sW.activeIndex : Int) = 1)
    ∧ (((handleTouchEnd startY endY ok2 sW).activeIndex : Int) - (sW.activeIndex : Int) = -1 ∨
       ((handleTouchEnd startY endY ok2 sW).activeIndex : Int) - (sW.activeIndex : Int) = 0 ∨
       ((handleTouchEnd startY endY ok2 sW).activeIndex : Int) - (sW.activeIndex : Int) = 1) := by
  refine ⟨?_, ?_, ?_⟩
  · rw [drag_gesture_activeIndex y0 y1 hgt sN hNf, hNs]
    split_ifs <;> exact clampIndex_step sN.lastActiveIndex sN.itemIds.length _ hNv
      (by omega) (by omega)
  · rw [handleWheel_activeIndex δ ok1 sW hWf hWl]
    split_ifs <;> exact clampIndex_step sW.activeIndex sW.itemCount _ hWv (by omega) (by omega)
  · rw [handleTouchEnd_activeIndex startY endY ok2 sW hWf]
    split_ifs <;> exact clampIndex_step sW.activeIndex sW.itemCount _ hWv (by omega) (by omega)

/-- Claim C2 witness: a drag released 500 units away, a wheel tick of
delta 3, and a 100-unit touch swipe on a three-item feed at index 1 each
change `activeIndex` by at most one step. -/
theorem gesture_step_bounded_witness :
    ((onEndDrag 500 800 (onBeginDrag 0 ⟨["A", "B", "C"], 1, 1, true, 0, 0, false⟩)).1.activeIndex -
       (⟨["A", "B", "C"], 1, 1, true, 0, 0, false⟩ : NativeFeedState).activeIndex = -1 ∨
     (onEndDrag 500 800 (onBeginDrag 0 ⟨["A", "B", "C"], 1, 1, true, 0, 0, false⟩)).1.activeIndex -
       (⟨["A", "B", "C"], 1, 1, true, 0, 0, false⟩ : NativeFeedState).activeIndex = 0 ∨
     (onEndDrag 500 800 (onBeginDrag 0 ⟨["A", "B", "C"], 1, 1, true, 0, 0, false⟩)).1.activeIndex -
       (⟨["A", "B", "C"], 1, 1, true, 0, 0, false⟩ : NativeFeedState).activeIndex = 1)
    ∧ (((handleWheel 3 true ⟨3, [], 1, false, true⟩).activeIndex : Int) -
         ((⟨3, [], 1, false, true⟩ : WebFeedState).activeIndex : Int) = -1 ∨
       ((handleWheel 3 true ⟨3, [], 1, false, true⟩).activeIndex : Int) -
         ((⟨3, [], 1, false, true⟩ : WebFeedState).activeIndex : Int) = 0 ∨
       ((handleWheel 3 true ⟨3, [], 1, false, true⟩).activeIndex : Int) -
         ((⟨3, [], 1, false, true⟩ : WebFeedState).activeIndex : Int) = 1)
    ∧ (((handleTouchEnd 0 100 true ⟨3, [], 1, false, true⟩).activeIndex : Int) -
         ((⟨3, [], 1, false, true⟩ : WebFeedState).activeIndex : Int) = -1 ∨
       ((handleTouchEnd 0 100 true ⟨3, [], 1, false, true⟩).activeIndex : Int) -
         ((⟨3, [], 1, false, true⟩ : WebFeedState).activeIndex : Int) = 0 ∨
       ((handleTouchEnd 0 100 true ⟨3, [], 1, false, true⟩).activeIndex : Int) -
         ((⟨3, [], 1, false, true⟩ : WebFeedState).activeIndex : Int) = 1) :=
  gesture_step_bounded ⟨["A", "B", "C"], 1, 1, true, 0, 0, false⟩ ⟨3, [], 1, false, true⟩
    0 500 800 3 0 100 true true rfl rfl (by decide) rfl rfl (by decide)

/-- Claim C5 counterexample: the claim says an empty filtered list forces
`activeIndex = -1` and makes every operation a no-op.  On the concrete
native state with `itemIds = []`, `feedActive = true` and
`activeIndex = 0`, an end-drag commit runs anyway: `clampIndex(·, -1)`
returns 0, so the commit leaves `activeIndex` at the non-negative value 0
— never -1 — and still issues a scroll command. -/
theorem empty_list_forces_neg_one_cex :
    (onEndDrag 1000 800 ⟨[], 0, 0, true, 0, 0, false⟩).1.activeIndex = 0
    ∧ (onEndDrag 1000 800 ⟨[], 0, 0, true, 0, 0, false⟩).1.activeIndex ≠ -1
    ∧ (onEndDrag 1000 800 ⟨[], 0, 0, true, 0, 0, false⟩).2 = [⟨0, true⟩] := by
  norm_num [onEndDrag, nativeCommit, clampIndex]

/-- Claim C5 (amended): when `itemCount == 0` the code does not force
`activeIndex` to -1 and commits are not no-ops: `clampIndex` against
`maxIndex = -1` yields 0 for every input, so an end-drag commit on the
empty list sets `activeIndex` and `lastActiveIndexRef` to 0 (a
non-negative value) and issues a scroll command; `activeIndex` becomes -1
only through the `feedActive = false` path. -/
theorem empty_list_commit_clamps_to_zero (s : NativeFeedState) (endY hgt : ℚ)
    (hempty : s.itemIds = []) (hf : s.feedActive = true) :
    (onEndDrag endY hgt s).1.activeIndex = 0
    ∧ (onEndDrag endY hgt s).1.lastActiveIndex = 0
    ∧ (onEndDrag endY hgt s).2 = [⟨0, true⟩]
    ∧ ∀ x : Int, clampIndex x (-1) = 0 := by
  refine ⟨?_, ?_, ?_, fun x => clampIndex_neg_max x⟩ <;>
    simp [onEndDrag, nativeCommit, hempty, hf, clampIndex_neg_max]

/-- Claim C5 witness (amended): an end-drag on an empty-list state with a
large displacement commits index 0 and issues a scroll request. -/
theorem empty_list_commit_clamps_to_zero_witness :
    (onEndDrag 700 800 ⟨[], 0, 0, true, 0, 0, false⟩).1.activeIndex = 0
    ∧ (onEndDrag 700 800 ⟨[], 0, 0, true, 0, 0, false⟩).1.lastActiveIndex = 0
    ∧ (onEndDrag 700 800 ⟨[], 0, 0, true, 0, 0, false⟩).2 = [⟨0, true⟩]
    ∧ ∀ x : Int, clampIndex x (-1) = 0 :=
  empty_list_commit_clamps_to_zero ⟨[], 0, 0, true, 0, 0, false⟩ 700 800 rfl rfl

/-- Claim C6 counterexample: the claim says committing `i == activeIndex`
triggers no additional play/pause calls on any handle.  In the web feed a
commit of the current index 0 (the state has `activeIndex = 0`) leaves
`activeIndex` unchanged but `playIndex`'s `forEach` still issues `play()`
to handle 0 and `pause()` to handle 1. -/
theorem commit_same_index_reissues_calls_cex :
    (playIndexState 0 true ⟨2, [some true, some false], 0, false, true⟩).activeIndex = 0
    ∧ playIndexCmds [some true, some false] 0 = [MediaCmd.play 0, MediaCmd.pause 1] :=
  ⟨rfl, rfl⟩

/-- Claim C6 (amended): committing `i == activeIndex` leaves `activeIndex`
and the last committed index unchanged.  In the native feed this triggers
no play/pause calls: the commit leaves the state — and hence every item's
`isActive` flag, the sole driver of the `VideoItem` play/pause effect —
literally identical.  In the web feed, however, `playIndex(activeIndex)`
re-issues `play()` to the registered handle at `activeIndex` and `pause()`
to every other registered handle. -/
theorem commit_same_index_state_idempotent
    (sN : NativeFeedState) (i : Nat) (sW : WebFeedState) (ok : Bool)
    (hsync : sN.activeIndex = (sN.lastActiveIndex : Int))
    (hi : (i : Int) = sN.activeIndex)
    (hreg : (sW.handles.getD sW.activeIndex none).isSome = true) :
    nativeCommit i sN = sN
    ∧ (playIndexState sW.activeIndex ok sW).activeIndex = sW.activeIndex
    ∧ MediaCmd.play sW.activeIndex ∈ playIndexCmds sW.handles sW.activeIndex
    ∧ ∀ j, j ≠ sW.activeIndex → (sW.handles.getD j none).isSome = true →
        MediaCmd.pause j ∈ playIndexCmds sW.handles sW.activeIndex := by
  refine ⟨?_, rfl, ?_, ?_⟩
  · have hla : i = sN.lastActiveIndex := by omega
    unfold nativeCommit
    rw [hi, hla]
  · have h := reconcileCmds_mem sW.activeIndex sW.handles 0 sW.activeIndex hreg
    simpa [playIndexCmds] using h
  · intro j hj hjreg
    have h := reconcileCmds_mem sW.activeIndex sW.handles 0 j hjreg
    simp only [Nat.zero_add] at h
    rw [if_neg hj] at h
    exact h

/-- Claim C6 witness (amended): committing the current index 1 of a
two-item native feed changes nothing; in a two-item web feed at index 0
with both handles registered, the same-value commit keeps `activeIndex`
but re-issues `play 0` and `pause 1`. -/
theorem commit_same_index_state_idempotent_witness :
    nativeCommit 1 ⟨["A", "B"], 1, 1, true, 0, 0, false⟩ = ⟨["A", "B"], 1, 1, true, 0, 0, false⟩
    ∧ (playIndexState (⟨2, [some true, some false], 0, false, true⟩ : WebFeedState).activeIndex true
        ⟨2, [some true, some false], 0, false, true⟩).activeIndex =
        (⟨2, [some true, some false], 0, false, true⟩ : WebFeedState).activeIndex
    ∧ MediaCmd.play (⟨2, [some true, some false], 0, false, true⟩ : WebFeedState).activeIndex ∈
        playIndexCmds [some true, some false]
          (⟨2, [some true, some false], 0, false, true⟩ : WebFeedState).activeIndex
    ∧ ∀ j, j ≠ (⟨2, [some true, some false], 0, false, true⟩ : WebFeedState).activeIndex →
        (([some true, some false] : List (Option Bool)).getD j none).isSome = true →
        MediaCmd.pause j ∈ playIndexCmds [some true, some false]
          (⟨2, [some true, some false], 0, false, true⟩ : WebFeedState).activeIndex :=
  commit_same_index_state_idempotent ⟨["A", "B"], 1, 1, true, 0, 0, false⟩ 1
    ⟨2, [some true, some false], 0, false, true⟩ true rfl rfl (by decide)

/-- Claim C7 counterexample: the claim says a zero wheel delta commits no
step.  On the concrete web state at index 1 of three items, unlocked and
active, `handleWheel` with `deltaY = 0` takes the `-1` branch of
`deltaY > 0 ? 1 : -1` and commits index 0: the index does change. -/
theorem wheel_zero_delta_steps_cex :
    (handleWheel 0 true ⟨3, [some true, some false, some false], 1, false, true⟩).activeIndex = 0
    ∧ (handleWheel 0 true ⟨3, [some true, some false, some false], 1, false, true⟩).activeIndex ≠ 1 := by
  decide

/-- Claim C7 (amended): an unlocked wheel tick on the active feed commits
exactly one step in direction `deltaY > 0 ? +1 : -1` — the next index is
`clamp(startIndex + dir, 0, itemCount-1)` and the wheel lock is taken —
but a zero delta is treated like a negative one and commits a step toward
the previous item rather than no step. -/
theorem wheel_commit_formula (s : WebFeedState) (δ : ℚ) (ok : Bool)
    (hf : s.feedActive = true) (hl : s.wheelLock = false) :
    (handleWheel δ ok s).activeIndex
      = (clampIndex ((s.activeIndex : Int) + (if δ > 0 then 1 else -1))
          ((s.itemCount : Int) - 1)).toNat
    ∧ (handleWheel δ ok s).wheelLock = true := by
  constructor <;>
    simp [handleWheel, goToIndexState, playIndexState, goToIndexNext, wheelDir, hf, hl]

/-- Claim C7 witness (amended): a wheel tick of delta 5 at index 1 of three
items commits `clamp(1 + 1, 0, 2)` and takes the lock. -/
theorem wheel_commit_formula_witness :
    (handleWheel 5 true ⟨3, [some true, some false, some false], 1, false, true⟩).activeIndex
      = (clampIndex (((⟨3, [some true, some false, some false], 1, false, true⟩ :
            WebFeedState).activeIndex : Int) + (if (5 : ℚ) > 0 then 1 else -1))
          (((⟨3, [some true, some false, some false], 1, false, true⟩ :
            WebFeedState).itemCount : Int) - 1)).toNat
    ∧ (handleWheel 5 true ⟨3, [some true, some false, some false], 1, false, true⟩).wheelLock = true :=
  wheel_commit_formula ⟨3, [some true, some false, some false], 1, false, true⟩ 5 true rfl rfl

/-- Claim C8: while the wheel lock is held no further wheel input commits
anything — a second flick arriving before the 320ms unlock timeout fires
(modelled as: no `wheelUnlock` between the two events) hits the
`wheelLockRef` guard and leaves the state exactly as the first flick left
it — so two same-direction flicks within the cool-down change
`activeIndex` by a net of 1, not 2. -/
theorem wheel_lock_absorbs_second_flick (s : WebFeedState) (δ1 δ2 : ℚ) (ok1 ok2 : Bool)
    (hf : s.feedActive = true) (hl : s.wheelLock = false)
    (hd : 0 < δ1) (hroom : s.activeIndex + 1 < s.itemCount) :
    handleWheel δ2 ok2 (handleWheel δ1 ok1 s) = handleWheel δ1 ok1 s
    ∧ (handleWheel δ2 ok2 (handleWheel δ1 ok1 s)).activeIndex = s.activeIndex + 1 := by
  have h1 : (handleWheel δ1 ok1 s).wheelLock = true := by
    simp [handleWheel, hf, hl, goToIndexState, playIndexState]
  have hstop := handleWheel_locked δ2 ok2 _ h1
  refine ⟨hstop, ?_⟩
  rw [hstop]
  have hclamp : (clampIndex ((s.activeIndex : Int) + 1) ((s.itemCount : Int) - 1)).toNat
      = s.activeIndex + 1 := by
    unfold clampIndex
    omega
  simp [handleWheel, hf, hl, goToIndexState, playIndexState, goToIndexNext, wheelDir, hd, hclamp]

/-- Claim C8 witness: two upward flicks (deltas 5 then 7) with no unlock in
between, starting at index 0 of three items: the second flick is absorbed
and the net change is one step, to index 1. -/
theorem wheel_lock_absorbs_second_flick_witness :
    handleWheel 7 true (handleWheel 5 true ⟨3, [none, none, none], 0, false, true⟩) =
      handleWheel 5 true ⟨3, [none, none, none], 0, false, true⟩
    ∧ (handleWheel 7 true (handleWheel 5 true ⟨3, [none, none, none], 0, false, true⟩)).activeIndex =
      (⟨3, [none, none, none], 0, false, true⟩ : WebFeedState).activeIndex + 1 :=
  wheel_lock_absorbs_second_flick ⟨3, [none, none, none], 0, false, true⟩ 5 7 true true
    rfl rfl (by decide) (by decide)

end Veeky
